import Mathlib

/-!
Shallow embedding of the ellar request-parameter resolution engine
(`ellar/common/params/args/base.py`, `ellar/core/params/args/extra_args.py`,
`routing/websocket_handlers.py`) and proofs about it.

Machinery outside the repository (pydantic field construction, the concrete
per-source resolvers) is abstracted: a parameter's declared type is reduced to
its shape classification (scalar / scalar-sequence / pydantic-model / other),
which is exactly what the source branches on, and runtime resolvers are opaque
functions from an execution context to a value mapping plus errors.
-/

namespace Ellar

/-- Python values relevant to truthiness of `ExtraEndpointArg.default_value`. -/
inductive PyVal
  | vNone
  | vBool (b : Bool)
  | vInt (n : Int)
  | vStr (s : String)
  deriving DecidableEq, Repr

/-- Python truthiness for the modelled values. -/
def PyVal.truthy : PyVal → Bool
  | .vNone => false
  | .vBool b => b
  | .vInt n => n != 0
  | .vStr s => s != ""

/-- The concrete `FieldInfo` subclass a parameter default belongs to
(`ellar/common/params/params.py`). -/
inductive FieldInfoKind
  | path
  | query
  | header
  | cookie
  | body
  | wsBody
  | form
  | file
  deriving DecidableEq, Repr

/-- A parameter's default value, as `inspect` sees it: the `empty` sentinel, a
plain Python value, a `FieldInfo` instance of some kind, or a
`SystemParameterResolver` instance (tagged to tell instances apart). -/
inductive Dflt
  | empty
  | value (v : PyVal)
  | fieldInfo (k : FieldInfoKind)
  | systemResolver (tag : Nat)
  deriving DecidableEq, Repr

/-- `isinstance(d, SystemParameterResolver)`. -/
def Dflt.isSystemResolver : Dflt → Bool
  | .systemResolver _ => true
  | _ => false

/-- Python truthiness of a default value: `None`, `0`, `""`, `False` are falsy;
object instances (FieldInfo, resolvers, the `empty` sentinel class) are truthy. -/
def Dflt.truthy : Dflt → Bool
  | .value v => v.truthy
  | _ => true

/-- Shape classification of a declared type, the disjoint outcome of
`is_scalar_field`, `is_scalar_sequence_field` and
`lenient_issubclass(outer_type_, BaseModel)`:
`scalar` — a scalar field; `scalarSeq` — not scalar but a scalar sequence;
`model` — neither, but a pydantic `BaseModel` subclass; `other` — none of
these (e.g. `List[Item]`, `dict`). -/
inductive TypeShape
  | scalar
  | scalarSeq
  | model
  | other
  deriving DecidableEq, Repr

/-- A declared type: its shape, its printable name (used in error messages),
whether `get_default_resolver` has a registered non-schema resolver for it, and
— when the shape is `model` — the model's own declared fields with their
shapes, in declaration order. -/
structure TypeExpr where
  shape : TypeShape
  pyName : String
  nonSchema : Bool
  modelFields : List (String × TypeShape)
  deriving DecidableEq, Repr

/-- A parameter's type hint: absent (`inspect.Parameter.empty`), a plain type,
or `Annotated[ty, metadata...]` carrying a list of metadata items. -/
inductive TyAnn
  | empty
  | plain (ty : TypeExpr)
  | wrapped (ty : TypeExpr) (metadata : List Dflt)
  deriving DecidableEq, Repr

/-- Modelled from the spec: the field factory (`get_parameter_field`,
`factory.py`, not among the sources) derives the field's outer/inner type from
the annotation; a missing annotation is treated as a permissive plain scalar. -/
def TyAnn.typeExpr : TyAnn → TypeExpr
  | .empty => ⟨TypeShape.scalar, "Any", false, []⟩
  | .plain ty => ty
  | .wrapped ty _ => ty

end Ellar

namespace Ellar

/-! ## ExtraEndpointArg (`ellar/core/params/args/extra_args.py`) -/

/-- The stored state of an `ExtraEndpointArg`: name, annotation, default. -/
structure ExtraArg where
  name : String
  tyAnn : TyAnn
  default : Dflt
  deriving DecidableEq, Repr

/-- `ExtraEndpointArg.__init__`: stores name and annotation, and
`self.default = default_value or self.empty` — a falsy `default_value` is
replaced by the `inspect.Parameter.empty` sentinel. -/
def mkExtraEndpointArg (name : String) (tyAnn : TyAnn) (default_value : Dflt) :
    ExtraArg :=
  ⟨name, tyAnn, if default_value.truthy then default_value else Dflt.empty⟩

/-- First-match lookup in a keyword mapping (Python `kwargs[k]` / `k in kwargs`;
dict keys are unique, so first match is the match). -/
def lookupKV {V : Type} (k : String) : List (String × V) → Option V
  | [] => none
  | (k', v) :: rest => if k' = k then some v else lookupKV k rest

/-- Removal of the (first) binding of a key (Python `kwargs.pop(k)`). -/
def eraseKV {V : Type} (k : String) : List (String × V) → List (String × V)
  | [] => []
  | (k', v) :: rest => if k' = k then rest else (k', v) :: eraseKV k rest

/-- `ExtraEndpointArg.resolve(kwargs)`: if the name is bound, pop and return the
value (here: return the value together with the shrunken mapping); otherwise
raise `AttributeError`. -/
def ExtraArg.resolve {V : Type} (x : ExtraArg) (kwargs : List (String × V)) :
    Except String (V × List (String × V)) :=
  match lookupKV x.name kwargs with
  | some v => Except.ok (v, eraseKV x.name kwargs)
  | none => Except.error (x.name ++ " ExtraOperationArg not found")

/-! ## Build-time model (`ellar/common/params/args/base.py`) -/

/-- A build failure: `ImproperConfiguration` (the repository's configuration
error) or a failed `assert` statement (Python `AssertionError`). -/
inductive BuildErr
  | improperConfig (msg : String)
  | assertFail (msg : String)
  deriving DecidableEq, Repr

/-- The bucket keys of `_computation_models` actually written by the build:
the four `ParamTypes` values used for non-body sources, the body key shared by
Body/WsBody/Form/File field infos, and the system-resolver key. -/
inductive BucketKey
  | header
  | path
  | query
  | cookie
  | system
  | body
  deriving DecidableEq, Repr

/-- `FieldInfoKind.in_.value`, the bucket a classified field is filed under
(`ellar/common/params/params.py`: Body, WsBody, Form and File all declare
`in_ = ParamTypes.body`). -/
def FieldInfoKind.bucket : FieldInfoKind → BucketKey
  | .path => BucketKey.path
  | .query => BucketKey.query
  | .header => BucketKey.header
  | .cookie => BucketKey.cookie
  | .body => BucketKey.body
  | .wsBody => BucketKey.body
  | .form => BucketKey.body
  | .file => BucketKey.body

/-- `isinstance(field_info, (BodyFieldInfo, FileFieldInfo))`: WsBodyFieldInfo
subclasses BodyFieldInfo and FileFieldInfo is listed explicitly; FormFieldInfo
subclasses plain ParamFieldInfo, so a Form field is NOT matched. -/
def FieldInfoKind.isBodyOrFile : FieldInfoKind → Bool
  | .body => true
  | .wsBody => true
  | .file => true
  | _ => false

/-- The bulk resolver generator classes of `_bulk_resolvers_generators`,
selected by the exact class of the parameter default (`str(type(param))`). -/
inductive GeneratorKind
  | formGen
  | pathGen
  | queryHeaderGen
  | bulkDefault
  deriving DecidableEq, Repr

/-- `EndpointArgsModel.get_resolver_generator`: look the default's exact class
up in `_bulk_resolvers_generators`, falling back to the plain
`BulkArgsResolverGenerator`. -/
def get_resolver_generator : Dflt → GeneratorKind
  | .fieldInfo .form => GeneratorKind.formGen
  | .fieldInfo .path => GeneratorKind.pathGen
  | .fieldInfo .query => GeneratorKind.queryHeaderGen
  | .fieldInfo .header => GeneratorKind.queryHeaderGen
  | _ => GeneratorKind.bulkDefault

/-- The kind of a signature parameter (`inspect.Parameter.kind`), collapsed to
what the code branches on. -/
inductive SigKind
  | normal
  | varPositional
  | varKeyword
  deriving DecidableEq, Repr

/-- One parameter of the endpoint's typed signature. -/
structure Param where
  name : String
  kind : SigKind
  tyAnn : TyAnn
  default : Dflt
  deriving DecidableEq, Repr

/-- Where a computed resolver entry came from. -/
inductive EntryOrigin
  | fromSig (p : Param)
  | fromExtra (x : ExtraArg)
  deriving DecidableEq, Repr

/-- One resolver appended to a `_computation_models` bucket: the parameter
name, the bucket it was filed under, whether a bulk resolver generator expanded
it into child resolvers (and the child field names), and its provenance. -/
structure ResolverEntry where
  paramName : String
  source : BucketKey
  isBulk : Bool
  children : List String
  origin : EntryOrigin
  deriving DecidableEq, Repr

/-- The abstraction of a pydantic `ModelField` that the build branches on:
name, the `FieldInfo` kind attached to it, and the declared type. -/
structure ModelFieldM where
  fname : String
  fieldKind : FieldInfoKind
  ty : TypeExpr
  deriving DecidableEq, Repr

/-- Modelled from the spec: `get_parameter_field` (`factory.py`, not among the
sources). Per spec section 4.1 step 5 the field keeps the default value's
declared field-kind when the default is a field-info instance, else the
supplied `default_field_info`; per step 4 a path parameter is classified as
Path regardless of a non-Path default (`ignore_default` is set in that case). -/
def get_parameter_field (param_default : Dflt) (tyAnn : TyAnn)
    (default_field_info : FieldInfoKind) (param_name : String)
    (ignore_default : Bool) : ModelFieldM :=
  let k := match param_default with
    | Dflt.fieldInfo k => if ignore_default then default_field_info else k
    | _ => default_field_info
  ⟨param_name, k, tyAnn.typeExpr⟩

/-- Modelled from the spec: the bulk resolver generators
(`resolver_generators.py`, not among the sources). Per spec section 4.3 a
structured model field is flattened one level into one child resolver per
declared field of the model, in declaration order. -/
def generate_resolvers (_g : GeneratorKind) (f : ModelFieldM) : List String :=
  f.ty.modelFields.map Prod.fst

/-- `EndpointArgsModel._get_annotation_type_and_default`: unwrap a single-layer
`Annotated[...]`; exactly one metadata item becomes the new default, anything
else raises `ImproperConfiguration`. -/
def getTypeAndDefault (a : TyAnn) (d : Dflt) : Except BuildErr (TyAnn × Dflt) :=
  match a with
  | TyAnn.wrapped ty ms =>
    match ms with
    | [m] => Except.ok (TyAnn.plain ty, m)
    | _ => Except.error
        (BuildErr.improperConfig
          "Cannot specify multiple Annotated Ellar arguments")
  | _ => Except.ok (a, d)

/-- The skip rule of `compute_route_parameter_list`: `**kwargs`, `*args`, and
an unannotated `self` never produce a resolver. -/
def skipParam (name : String) (kind : SigKind) (a : TyAnn) : Bool :=
  if kind = SigKind.varKeyword ∨ kind = SigKind.varPositional ∨
      (name = "self" ∧ a = TyAnn.empty) then true else false

/-- Classification of one signature parameter, following the body of the
`for` loop of `EndpointArgsModel.compute_route_parameter_list` step by step.
`Except.ok none` means the parameter was skipped; `Except.ok (some e)` is the
resolver entry appended to bucket `e.source`. The `body_field_class` argument
of the source is left at its default `BodyFieldInfo` here. -/
def classifySig (pathNames : List String) (p : Param) :
    Except BuildErr (Option ResolverEntry) :=
  match getTypeAndDefault p.tyAnn p.default with
  | Except.error e => Except.error e
  | Except.ok (a, d) =>
    if skipParam p.name p.kind a then Except.ok none
    else if a.typeExpr.nonSchema ∧ d = Dflt.empty then
      -- _add_non_pydantic_field_to_dependency
      Except.ok (some ⟨p.name, BucketKey.system, false, [], EntryOrigin.fromSig p⟩)
    else if d.isSystemResolver then
      -- _add_system_parameters_to_dependency
      Except.ok (some ⟨p.name, BucketKey.system, false, [], EntryOrigin.fromSig p⟩)
    else if p.name ∈ pathNames then
      let ignore_default := match d with
        | Dflt.fieldInfo FieldInfoKind.path => false
        | _ => true
      let f := get_parameter_field d a FieldInfoKind.path p.name ignore_default
      if f.ty.shape = TypeShape.scalar then
        Except.ok (some ⟨p.name, f.fieldKind.bucket, false, [], EntryOrigin.fromSig p⟩)
      else
        Except.error
          (BuildErr.assertFail "Path params must be of one of the supported types")
    else
      let default_field_info := match d with
        | Dflt.fieldInfo k => k
        | _ => FieldInfoKind.query
      let f := get_parameter_field d a default_field_info p.name false
      if f.fieldKind.isBodyOrFile = false ∧ f.ty.shape ≠ TypeShape.scalar then
        if f.ty.shape ≠ TypeShape.scalarSeq then
          if f.ty.shape ≠ TypeShape.model then
            Except.error
              (BuildErr.improperConfig
                (f.ty.pyName ++ " type can't be processed as a field"))
          else
            Except.ok (some ⟨p.name, f.fieldKind.bucket, true,
              generate_resolvers (get_resolver_generator d) f, EntryOrigin.fromSig p⟩)
        else
          Except.ok (some ⟨p.name, f.fieldKind.bucket, false, [], EntryOrigin.fromSig p⟩)
      else
        Except.ok (some ⟨p.name, f.fieldKind.bucket, false, [], EntryOrigin.fromSig p⟩)

/-- Classification of one programmatically-injected argument, following the
body of the `for` loop of `EndpointArgsModel._add_extra_route_args`: unwrap,
system-resolver check, then a plain field — no skip rule and no shape
validation. -/
def classifyExtra (x : ExtraArg) : Except BuildErr (Option ResolverEntry) :=
  match getTypeAndDefault x.tyAnn x.default with
  | Except.error e => Except.error e
  | Except.ok (_, d) =>
    if d.isSystemResolver then
      Except.ok (some ⟨x.name, BucketKey.system, false, [], EntryOrigin.fromExtra x⟩)
    else
      let default_field_info := match d with
        | Dflt.fieldInfo k => k
        | _ => FieldInfoKind.query
      let f := get_parameter_field d x.tyAnn default_field_info x.name false
      Except.ok (some ⟨x.name, f.fieldKind.bucket, false, [], EntryOrigin.fromExtra x⟩)

/-- Helper for `get_path_param_names`: a left-to-right scan equivalent to
`re.findall("\x7b(.*?)\x7d", path)` — outside a brace pair, look for an
opening brace; inside one, accumulate characters until the first closing brace
and emit the captured name. An unterminated opening brace captures nothing. -/
def pathNamesScan : List Char → Bool → List Char → List String
  | [], _, _ => []
  | c :: rest, false, acc =>
    if c = '\x7b' then pathNamesScan rest true []
    else pathNamesScan rest false acc
  | c :: rest, true, acc =>
    if c = '\x7d' then String.mk acc.reverse :: pathNamesScan rest false []
    else pathNamesScan rest true (c :: acc)

/-- `EndpointArgsModel.get_path_param_names`: the names matched by the
non-greedy brace pattern, scanning the path left to right. Python stores them
in a set; membership is all the build uses, so the list of matches stands in
for the set. -/
def get_path_param_names (path : String) : List String :=
  pathNamesScan path.data false []

/-- The per-key lists of `_computation_models` that the build writes to. -/
structure Buckets where
  header : List ResolverEntry
  path : List ResolverEntry
  query : List ResolverEntry
  cookie : List ResolverEntry
  system : List ResolverEntry
  body : List ResolverEntry
  deriving DecidableEq, Repr

def Buckets.empty : Buckets := ⟨[], [], [], [], [], []⟩

/-- `self._computation_models[key].append(entry)`. -/
def Buckets.add (b : Buckets) (e : ResolverEntry) : Buckets :=
  match e.source with
  | BucketKey.header => ⟨b.header ++ [e], b.path, b.query, b.cookie, b.system, b.body⟩
  | BucketKey.path => ⟨b.header, b.path ++ [e], b.query, b.cookie, b.system, b.body⟩
  | BucketKey.query => ⟨b.header, b.path, b.query ++ [e], b.cookie, b.system, b.body⟩
  | BucketKey.cookie => ⟨b.header, b.path, b.query, b.cookie ++ [e], b.system, b.body⟩
  | BucketKey.system => ⟨b.header, b.path, b.query, b.cookie, b.system ++ [e], b.body⟩
  | BucketKey.body => ⟨b.header, b.path, b.query, b.cookie, b.system, b.body ++ [e]⟩

/-- `EndpointArgsModel.compute_route_parameter_list`: walk the signature in
declaration order, classify each parameter, append the produced resolver to its
bucket; the first raised error aborts the build. -/
def computeSigParams (pathNames : List String) (b : Buckets) :
    List Param → Except BuildErr Buckets
  | [] => Except.ok b
  | p :: rest =>
    match classifySig pathNames p with
    | Except.error e => Except.error e
    | Except.ok none => computeSigParams pathNames b rest
    | Except.ok (some entry) => computeSigParams pathNames (b.add entry) rest

/-- `EndpointArgsModel._add_extra_route_args` over the registered
`ExtraEndpointArg` list. -/
def computeExtras (b : Buckets) : List ExtraArg → Except BuildErr Buckets
  | [] => Except.ok b
  | x :: rest =>
    match classifyExtra x with
    | Except.error e => Except.error e
    | Except.ok none => computeExtras b rest
    | Except.ok (some entry) => computeExtras (b.add entry) rest

/-- An endpoint as the model constructor sees it: route path template, typed
signature parameters in declaration order, extra programmatic arguments. -/
structure Endpoint where
  path : String
  params : List Param
  extraArgs : List ExtraArg
  deriving DecidableEq, Repr

/-- The mutable state `build_model` writes: `_computation_models`,
`_route_models` and `body_resolver`. -/
structure ModelState where
  computationModels : Buckets
  routeModels : List ResolverEntry
  bodyResolver : Option (List ResolverEntry)
  deriving DecidableEq, Repr

def ModelState.initial : ModelState := ⟨Buckets.empty, [], none⟩

/-- Modelled from the spec: `build_body_field` is implemented by subclasses
(not among the sources); per spec section 4.4 it builds the endpoint's single
body resolver exactly when a body/form/file field was classified. -/
def build_body_field (b : Buckets) : Option (List ResolverEntry) :=
  if b.body = [] then none else some b.body

/-- `EndpointArgsModel.build_model`, acting on the previous state: it starts by
resetting `_computation_models` to a fresh empty defaultdict, then runs
`compute_route_parameter_list`, `compute_extra_route_args`, `build_body_field`,
and reassigns `_route_models` as the concatenation of the header, path, query,
cookie and system buckets. -/
def build_model (e : Endpoint) (_s : ModelState) : Except BuildErr ModelState :=
  match computeSigParams (get_path_param_names e.path) Buckets.empty e.params with
  | Except.error err => Except.error err
  | Except.ok b1 =>
    match computeExtras b1 e.extraArgs with
    | Except.error err => Except.error err
    | Except.ok b2 =>
      Except.ok ⟨b2,
        b2.header ++ b2.path ++ b2.query ++ b2.cookie ++ b2.system,
        build_body_field b2⟩

/-- The classified resolver entries of the signature walk, flat and in
declaration order (the reference list the bucket contents are compared to). -/
def classifiedSigEntries (pathNames : List String) :
    List Param → Except BuildErr (List ResolverEntry)
  | [] => Except.ok []
  | p :: rest =>
    match classifySig pathNames p with
    | Except.error e => Except.error e
    | Except.ok none => classifiedSigEntries pathNames rest
    | Except.ok (some entry) =>
      match classifiedSigEntries pathNames rest with
      | Except.error e => Except.error e
      | Except.ok es => Except.ok (entry :: es)

/-- The classified resolver entries of the extra-argument walk, flat and in
registration order. -/
def classifiedExtraEntries : List ExtraArg → Except BuildErr (List ResolverEntry)
  | [] => Except.ok []
  | x :: rest =>
    match classifyExtra x with
    | Except.error e => Except.error e
    | Except.ok none => classifiedExtraEntries rest
    | Except.ok (some entry) =>
      match classifiedExtraEntries rest with
      | Except.error e => Except.error e
      | Except.ok es => Except.ok (entry :: es)

/-- All classified entries of an endpoint, in processing order: signature
parameters first, then extra arguments. -/
def classifiedEntries (e : Endpoint) : Except BuildErr (List ResolverEntry) :=
  match classifiedSigEntries (get_path_param_names e.path) e.params with
  | Except.error err => Except.error err
  | Except.ok sigEs =>
    match classifiedExtraEntries e.extraArgs with
    | Except.error err => Except.error err
    | Except.ok extraEs => Except.ok (sigEs ++ extraEs)

/-- Bucket membership test used to state order preservation. -/
def hasSource (k : BucketKey) (e : ResolverEntry) : Bool :=
  if e.source = k then true else false

/-! ## Request-time model: `EndpointArgsModel.resolve_dependencies` -/

/-- The error output of one resolver, as `resolve_dependencies` receives it:
nothing (`None`), a single `ErrorWrapper`, or a list of them. -/
inductive ErrOut (E : Type)
  | nothing
  | one (e : E)
  | many (es : List E)

/-- The normalization `resolve_dependencies` applies before aggregating:
`value_errors if isinstance(value_errors, list) else [value_errors]`, guarded
by the truthiness test, so nothing and an empty list both contribute nothing. -/
def ErrOut.norm {E : Type} : ErrOut E → List E
  | .nothing => []
  | .one e => [e]
  | .many es => es

/-- One runtime non-body resolver: an id (to observe which resolvers were
invoked) and its `resolve(ctx)` behaviour. -/
structure RtResolver (Ctx V E : Type) where
  rid : Nat
  run : Ctx → List (String × V) × ErrOut E

/-- The runtime view of a built endpoint argument model: the optional body
resolver and the precomputed ordered non-body resolver list. -/
structure RuntimeModel (Ctx V E : Type) where
  bodyResolver : Option (Ctx → List (String × V) × List E)
  routeModels : List (RtResolver Ctx V E)

/-- `values[k] = v` on an insertion-ordered mapping: replace in place when the
key exists, append otherwise (Python dict assignment). -/
def insertKV {V : Type} (l : List (String × V)) (k : String) (v : V) :
    List (String × V) :=
  match l with
  | [] => [(k, v)]
  | (k', v') :: rest =>
    if k' = k then (k, v) :: rest else (k', v') :: insertKV rest k v

/-- `values.update(upd)`: assign every binding of `upd` in order, later
bindings overwriting earlier ones on key collision. -/
def dictUpdate {V : Type} (base upd : List (String × V)) : List (String × V) :=
  upd.foldl (fun acc kv => insertKV acc kv.1 kv.2) base

/-- Modelled from the spec: `resolve_body` (implemented by subclasses, not
among the sources) resolves the body resolver against the context and extends
the values mapping and error list with its output. -/
def bodyOutput {Ctx V E : Type} (m : RuntimeModel Ctx V E) (ctx : Ctx) :
    List (String × V) × List E :=
  match m.bodyResolver with
  | some rb => rb ctx
  | none => ([], [])

/-- One iteration of the resolver loop of `resolve_dependencies`: resolve,
merge a truthy value mapping, append normalized truthy errors — instrumented
to record the resolver's id as invoked. -/
def resolveStep {Ctx V E : Type} (ctx : Ctx)
    (acc : List (String × V) × List E × List Nat) (r : RtResolver Ctx V E) :
    List (String × V) × List E × List Nat :=
  let out := r.run ctx
  (dictUpdate acc.1 out.1, acc.2.1 ++ out.2.norm, acc.2.2 ++ [r.rid])

/-- `EndpointArgsModel.resolve_dependencies`, instrumented with the list of
ids of the non-body resolvers actually invoked: resolve the body first if a
body resolver exists; if that produced any errors, return immediately with
them; otherwise run every resolver of `_route_models` in order, merging value
mappings and aggregating normalized error lists. -/
def resolve_dependencies {Ctx V E : Type} (m : RuntimeModel Ctx V E)
    (ctx : Ctx) : List (String × V) × List E × List Nat :=
  let bodyOut := bodyOutput m ctx
  if bodyOut.2.isEmpty then
    m.routeModels.foldl (resolveStep ctx) (bodyOut.1, bodyOut.2, [])
  else (bodyOut.1, bodyOut.2, [])

/-! ## WebSocket dispatch (`routing/websocket_handlers.py`) -/

def WS_1000_NORMAL_CLOSURE : Nat := 1000
def WS_1011_INTERNAL_ERROR : Nat := 1011

/-- A message handed to the receive loop of `WebSocketExtraHandler.dispatch`:
a `websocket.receive` frame whose processing (decode plus on-receive,
including per-message dependency resolution) either succeeds or raises, or a
`websocket.disconnect` frame with an optional close code. -/
inductive WsMsg
  | receiveMsg (processRaises : Bool)
  | disconnectMsg (code : Option Nat)
  deriving DecidableEq, Repr

/-- The observable outcome of one dispatch run. -/
structure WsDispatchResult where
  onReceiveCount : Nat
  onDisconnectCodes : List Nat
  raised : Bool
  deriving DecidableEq, Repr

/-- The `while True` receive loop of `dispatch`, together with the enclosing
`try/except`: returns (number of completed on-receive invocations, final close
code, whether an exception is re-raised). A `websocket.receive()` call on an
exhausted transport raises, taking the internal-error path, as does a raising
message processing; a disconnect frame captures its code (defaulting to normal
closure) and breaks the loop. -/
def wsLoop : List WsMsg → Nat × Nat × Bool
  | [] => (0, WS_1011_INTERNAL_ERROR, true)
  | WsMsg.receiveMsg true :: _ => (0, WS_1011_INTERNAL_ERROR, true)
  | WsMsg.receiveMsg false :: rest =>
    let out := wsLoop rest
    (out.1 + 1, out.2)
  | WsMsg.disconnectMsg code :: _ =>
    (0, code.getD WS_1000_NORMAL_CLOSURE, false)

/-- `WebSocketExtraHandler.dispatch`: run the receive loop and, in the
`finally` block, run `execute_on_disconnect` exactly once with the final close
code — which invokes the on-disconnect hook when one is registered. -/
def dispatch (hasOnDisconnect : Bool) (msgs : List WsMsg) : WsDispatchResult :=
  let out := wsLoop msgs
  ⟨out.1, if hasOnDisconnect then [out.2.1] else [], out.2.2⟩

/-- First-defined-wins combination of optional lookup results, used to state
which binding survives a key collision. -/
def orElseO {V : Type} (a b : Option V) : Option V :=
  match a with
  | some v => some v
  | none => b

/-- The endpoint of the C3 counterexample: route `/items/\x7bid\x7d` with the
path parameter declared as the structured type `List[Item]` (mirroring
`test_invalid_sequence` of `tests/test_routing/test_invalid_path_param.py`). -/
def c3Endpoint : Endpoint :=
  ⟨"/items/\x7bid\x7d",
   [⟨"id", SigKind.normal,
     TyAnn.plain ⟨TypeShape.other, "List[Item]", false, []⟩, Dflt.empty⟩],
   []⟩

/-- The parameter of the C2 counterexample: `q: Item = Query(None)` where
`Item` is a flat pydantic model with the single scalar field `title`. -/
def c2Param : Param :=
  ⟨"q", SigKind.normal,
   TyAnn.plain ⟨TypeShape.model, "Item", false, [("title", TypeShape.scalar)]⟩,
   Dflt.fieldInfo FieldInfoKind.query⟩

def c2Endpoint : Endpoint := ⟨"/items/", [c2Param], []⟩

/-- A plain scalar `int` annotation used by the concrete examples below. -/
def tyInt : TypeExpr := ⟨TypeShape.scalar, "int", false, []⟩

def c4qParam : Param :=
  ⟨"q", SigKind.normal, TyAnn.plain tyInt, Dflt.fieldInfo FieldInfoKind.query⟩

def c4hParam : Param :=
  ⟨"h", SigKind.normal, TyAnn.plain tyInt, Dflt.fieldInfo FieldInfoKind.header⟩

def c4idParam : Param :=
  ⟨"id", SigKind.normal, TyAnn.plain tyInt, Dflt.empty⟩

def c4cParam : Param :=
  ⟨"c", SigKind.normal, TyAnn.plain tyInt, Dflt.fieldInfo FieldInfoKind.cookie⟩

/-- An endpoint declaring, in this order, a query, a header, a path and a
cookie parameter on route `/x/\x7bid\x7d`. -/
def c4Endpoint : Endpoint :=
  ⟨"/x/\x7bid\x7d", [c4qParam, c4hParam, c4idParam, c4cParam], []⟩

def c4qEntry : ResolverEntry :=
  ⟨"q", BucketKey.query, false, [], EntryOrigin.fromSig c4qParam⟩

def c4hEntry : ResolverEntry :=
  ⟨"h", BucketKey.header, false, [], EntryOrigin.fromSig c4hParam⟩

def c4idEntry : ResolverEntry :=
  ⟨"id", BucketKey.path, false, [], EntryOrigin.fromSig c4idParam⟩

def c4cEntry : ResolverEntry :=
  ⟨"c", BucketKey.cookie, false, [], EntryOrigin.fromSig c4cParam⟩

def c6qParam : Param := ⟨"q", SigKind.normal, TyAnn.plain tyInt, Dflt.empty⟩

def c6Endpoint : Endpoint := ⟨"/", [c6qParam], []⟩

def c6qEntry : ResolverEntry :=
  ⟨"q", BucketKey.query, false, [], EntryOrigin.fromSig c6qParam⟩

/-- The state the first successful `build()` of `c6Endpoint` produces. -/
def c6State : ModelState :=
  ⟨⟨[], [], [c6qEntry], [], [], []⟩, [c6qEntry], none⟩

def c8qParam : Param := ⟨"q", SigKind.normal, TyAnn.plain tyInt, Dflt.empty⟩

/-- An endpoint whose signature is `(self, *args, **kwargs, q: int)`. -/
def c8Endpoint : Endpoint :=
  ⟨"/",
   [⟨"self", SigKind.normal, TyAnn.empty, Dflt.empty⟩,
    ⟨"args", SigKind.varPositional, TyAnn.empty, Dflt.empty⟩,
    ⟨"kwargs", SigKind.varKeyword, TyAnn.empty, Dflt.empty⟩,
    c8qParam],
   []⟩

def c8qEntry : ResolverEntry :=
  ⟨"q", BucketKey.query, false, [], EntryOrigin.fromSig c8qParam⟩

/-- The state `build()` of `c8Endpoint` produces: only `q` is resolved. -/
def c8State : ModelState :=
  ⟨⟨[], [], [c8qEntry], [], [], []⟩, [c8qEntry], none⟩

/-! ## Helper lemmas -/

theorem lookupKV_eq_none_of_not_mem {V : Type} (k : String)
    (l : List (String × V)) (h : k ∉ l.map Prod.fst) : lookupKV k l = none := by
  induction l with
  | nil => simp [lookupKV]
  | cons kv rest ih =>
    obtain ⟨k', v⟩ := kv
    simp only [List.map_cons, List.mem_cons] at h
    push_neg at h
    simp only [lookupKV, if_neg (Ne.symm h.1)]
    exact ih h.2

theorem lookupKV_eraseKV_self {V : Type} (k : String) (l : List (String × V))
    (hnd : (l.map Prod.fst).Nodup) : lookupKV k (eraseKV k l) = none := by
  induction l with
  | nil => simp [eraseKV, lookupKV]
  | cons kv rest ih =>
    obtain ⟨k', v⟩ := kv
    simp only [List.map_cons, List.nodup_cons] at hnd
    by_cases h : k' = k
    · subst h
      simp only [eraseKV, if_pos rfl]
      exact lookupKV_eq_none_of_not_mem _ _ hnd.1
    · simp only [eraseKV, if_neg h, lookupKV, if_neg h]
      exact ih hnd.2

theorem lookupKV_append {V : Type} (k : String) (l1 l2 : List (String × V)) :
    lookupKV k (l1 ++ l2) = orElseO (lookupKV k l1) (lookupKV k l2) := by
  induction l1 with
  | nil => simp [lookupKV, orElseO]
  | cons kv rest ih =>
    obtain ⟨k', v⟩ := kv
    by_cases h : k' = k <;> simp [lookupKV, h, ih, orElseO]

theorem lookupKV_insertKV {V : Type} (base : List (String × V)) (k k' : String)
    (v : V) :
    lookupKV k (insertKV base k' v) =
      if k' = k then some v else lookupKV k base := by
  induction base with
  | nil => simp [insertKV, lookupKV]
  | cons kv rest ih =>
    obtain ⟨k2, v2⟩ := kv
    by_cases h2 : k2 = k'
    · subst h2
      simp only [insertKV, if_pos rfl, lookupKV]
      by_cases hk : k2 = k <;> simp [hk]
    · simp only [insertKV, if_neg h2, lookupKV]
      by_cases hk2 : k2 = k
      · subst hk2
        have hne : k' ≠ k2 := fun he => h2 he.symm
        simp [hne]
      · simp [hk2, ih]

theorem lookupKV_dictUpdate {V : Type} (upd base : List (String × V))
    (k : String) :
    lookupKV k (dictUpdate base upd) =
      orElseO (lookupKV k upd.reverse) (lookupKV k base) := by
  induction upd generalizing base with
  | nil => simp [dictUpdate, lookupKV, orElseO]
  | cons kv rest ih =>
    obtain ⟨k', v⟩ := kv
    have step : dictUpdate base ((k', v) :: rest) =
        dictUpdate (insertKV base k' v) rest := rfl
    rw [step, ih, List.reverse_cons, lookupKV_append, lookupKV_insertKV]
    cases hlr : lookupKV k rest.reverse <;>
      by_cases hk : k' = k <;>
        simp [orElseO, hlr, hk, lookupKV]

theorem buckets_foldl_header (es : List ResolverEntry) (b : Buckets) :
    (es.foldl Buckets.add b).header =
      b.header ++ es.filter (hasSource BucketKey.header) := by
  induction es generalizing b with
  | nil => simp
  | cons e rest ih =>
    rw [List.foldl_cons, ih]
    cases hsrc : e.source <;>
      simp [Buckets.add, hasSource, hsrc, List.filter_cons]

theorem buckets_foldl_path (es : List ResolverEntry) (b : Buckets) :
    (es.foldl Buckets.add b).path =
      b.path ++ es.filter (hasSource BucketKey.path) := by
  induction es generalizing b with
  | nil => simp
  | cons e rest ih =>
    rw [List.foldl_cons, ih]
    cases hsrc : e.source <;>
      simp [Buckets.add, hasSource, hsrc, List.filter_cons]

theorem buckets_foldl_query (es : List ResolverEntry) (b : Buckets) :
    (es.foldl Buckets.add b).query =
      b.query ++ es.filter (hasSource BucketKey.query) := by
  induction es generalizing b with
  | nil => simp
  | cons e rest ih =>
    rw [List.foldl_cons, ih]
    cases hsrc : e.source <;>
      simp [Buckets.add, hasSource, hsrc, List.filter_cons]

theorem buckets_foldl_cookie (es : List ResolverEntry) (b : Buckets) :
    (es.foldl Buckets.add b).cookie =
      b.cookie ++ es.filter (hasSource BucketKey.cookie) := by
  induction es generalizing b with
  | nil => simp
  | cons e rest ih =>
    rw [List.foldl_cons, ih]
    cases hsrc : e.source <;>
      simp [Buckets.add, hasSource, hsrc, List.filter_cons]

theorem buckets_foldl_system (es : List ResolverEntry) (b : Buckets) :
    (es.foldl Buckets.add b).system =
      b.system ++ es.filter (hasSource BucketKey.system) := by
  induction es generalizing b with
  | nil => simp
  | cons e rest ih =>
    rw [List.foldl_cons, ih]
    cases hsrc : e.source <;>
      simp [Buckets.add, hasSource, hsrc, List.filter_cons]

theorem buckets_foldl_body (es : List ResolverEntry) (b : Buckets) :
    (es.foldl Buckets.add b).body =
      b.body ++ es.filter (hasSource BucketKey.body) := by
  induction es generalizing b with
  | nil => simp
  | cons e rest ih =>
    rw [List.foldl_cons, ih]
    cases hsrc : e.source <;>
      simp [Buckets.add, hasSource, hsrc, List.filter_cons]

theorem computeSigParams_ok_iff (pathNames : List String) (ps : List Param)
    (b b' : Buckets) :
    computeSigParams pathNames b ps = Except.ok b' ↔
      ∃ es, classifiedSigEntries pathNames ps = Except.ok es ∧
        b' = es.foldl Buckets.add b := by
  induction ps generalizing b with
  | nil =>
    simp only [computeSigParams, classifiedSigEntries]
    constructor
    · intro h
      exact ⟨[], rfl, by cases h; simp⟩
    · rintro ⟨es, hes, hb⟩
      cases hes
      simp at hb
      rw [hb]
  | cons p rest ih =>
    cases hc : classifySig pathNames p with
    | error e =>
      simp [computeSigParams, classifiedSigEntries, hc]
    | ok o =>
      cases o with
      | none =>
        simp only [computeSigParams, classifiedSigEntries, hc]
        exact ih b
      | some entry =>
        simp only [computeSigParams, classifiedSigEntries, hc]
        rw [ih (b.add entry)]
        constructor
        · rintro ⟨es, hes, hb⟩
          exact ⟨entry :: es, by rw [hes], by rw [hb, List.foldl_cons]⟩
        · rintro ⟨es, hes, hb⟩
          cases hrest : classifiedSigEntries pathNames rest with
          | error err => rw [hrest] at hes; cases hes
          | ok es' =>
            rw [hrest] at hes
            cases hes
            exact ⟨es', rfl, by rw [hb, List.foldl_cons]⟩

theorem computeExtras_ok_iff (xs : List ExtraArg) (b b' : Buckets) :
    computeExtras b xs = Except.ok b' ↔
      ∃ es, classifiedExtraEntries xs = Except.ok es ∧
        b' = es.foldl Buckets.add b := by
  induction xs generalizing b with
  | nil =>
    simp only [computeExtras, classifiedExtraEntries]
    constructor
    · intro h
      exact ⟨[], rfl, by cases h; simp⟩
    · rintro ⟨es, hes, hb⟩
      cases hes
      simp at hb
      rw [hb]
  | cons x rest ih =>
    cases hc : classifyExtra x with
    | error e =>
      simp [computeExtras, classifiedExtraEntries, hc]
    | ok o =>
      cases o with
      | none =>
        simp only [computeExtras, classifiedExtraEntries, hc]
        exact ih b
      | some entry =>
        simp only [computeExtras, classifiedExtraEntries, hc]
        rw [ih (b.add entry)]
        constructor
        · rintro ⟨es, hes, hb⟩
          exact ⟨entry :: es, by rw [hes], by rw [hb, List.foldl_cons]⟩
        · rintro ⟨es, hes, hb⟩
          cases hrest : classifiedExtraEntries rest with
          | error err => rw [hrest] at hes; cases hes
          | ok es' =>
            rw [hrest] at hes
            cases hes
            exact ⟨es', rfl, by rw [hb, List.foldl_cons]⟩

theorem classifySig_some_origin {pathNames : List String} {p : Param}
    {entry : ResolverEntry}
    (h : classifySig pathNames p = Except.ok (some entry)) :
    entry.origin = EntryOrigin.fromSig p := by
  unfold classifySig at h
  cases hg : getTypeAndDefault p.tyAnn p.default with
  | error e => rw [hg] at h; cases h
  | ok ad =>
    obtain ⟨a, d⟩ := ad
    rw [hg] at h
    simp only at h
    repeat' split at h
    all_goals
      first
      | (cases h ; rfl)
      | cases h

theorem classifySig_not_skipped {pathNames : List String} {p : Param}
    {entry : ResolverEntry}
    (h : classifySig pathNames p = Except.ok (some entry)) :
    p.kind = SigKind.normal ∧ ¬(p.name = "self" ∧ p.tyAnn = TyAnn.empty) := by
  constructor
  · by_contra hk
    have hvar : p.kind = SigKind.varKeyword ∨ p.kind = SigKind.varPositional := by
      cases hkind : p.kind <;> simp_all
    unfold classifySig at h
    cases hg : getTypeAndDefault p.tyAnn p.default with
    | error e => rw [hg] at h; cases h
    | ok ad =>
      obtain ⟨a, d⟩ := ad
      rw [hg] at h
      have hs : skipParam p.name p.kind a = true := by
        unfold skipParam
        rcases hvar with h1 | h1 <;> simp [h1]
      simp only [hs, if_true] at h
      cases h
  · rintro ⟨hname, hann⟩
    unfold classifySig at h
    rw [hann] at h
    have hg : getTypeAndDefault TyAnn.empty p.default =
        Except.ok (TyAnn.empty, p.default) := rfl
    rw [hg] at h
    have hs : skipParam p.name p.kind TyAnn.empty = true := by
      unfold skipParam
      simp [hname]
    simp only [hs, if_true] at h
    cases h

theorem mem_classifiedSigEntries {pathNames : List String} {ps : List Param}
    {es : List ResolverEntry} {entry : ResolverEntry}
    (h : classifiedSigEntries pathNames ps = Except.ok es) (hm : entry ∈ es) :
    ∃ p ∈ ps, classifySig pathNames p = Except.ok (some entry) := by
  induction ps generalizing es with
  | nil =>
    unfold classifiedSigEntries at h
    cases h
    cases hm
  | cons p rest ih =>
    unfold classifiedSigEntries at h
    cases hc : classifySig pathNames p with
    | error e => rw [hc] at h; cases h
    | ok o =>
      rw [hc] at h
      cases o with
      | none =>
        obtain ⟨p', hp', hcl⟩ := ih h hm
        exact ⟨p', List.mem_cons_of_mem _ hp', hcl⟩
      | some entry' =>
        cases hrest : classifiedSigEntries pathNames rest with
        | error e => rw [hrest] at h; cases h
        | ok es' =>
          rw [hrest] at h
          cases h
          rcases List.mem_cons.mp hm with heq | hmem
          · exact ⟨p, List.mem_cons_self _ _, by rw [hc, heq]⟩
          · obtain ⟨p', hp', hcl⟩ := ih hrest hmem
            exact ⟨p', List.mem_cons_of_mem _ hp', hcl⟩

theorem classifyExtra_some_origin {x : ExtraArg} {entry : ResolverEntry}
    (h : classifyExtra x = Except.ok (some entry)) :
    entry.origin = EntryOrigin.fromExtra x := by
  unfold classifyExtra at h
  cases hg : getTypeAndDefault x.tyAnn x.default with
  | error e => rw [hg] at h; cases h
  | ok ad =>
    obtain ⟨a, d⟩ := ad
    rw [hg] at h
    simp only at h
    repeat' split at h
    all_goals
      first
      | (cases h ; rfl)
      | cases h

theorem mem_classifiedExtraEntries {xs : List ExtraArg}
    {es : List ResolverEntry} {entry : ResolverEntry}
    (h : classifiedExtraEntries xs = Except.ok es) (hm : entry ∈ es) :
    ∃ x ∈ xs, classifyExtra x = Except.ok (some entry) := by
  induction xs generalizing es with
  | nil =>
    unfold classifiedExtraEntries at h
    cases h
    cases hm
  | cons x rest ih =>
    unfold classifiedExtraEntries at h
    cases hc : classifyExtra x with
    | error e => rw [hc] at h; cases h
    | ok o =>
      rw [hc] at h
      cases o with
      | none =>
        obtain ⟨x', hx', hcl⟩ := ih h hm
        exact ⟨x', List.mem_cons_of_mem _ hx', hcl⟩
      | some entry' =>
        cases hrest : classifiedExtraEntries rest with
        | error e => rw [hrest] at h; cases h
        | ok es' =>
          rw [hrest] at h
          cases h
          rcases List.mem_cons.mp hm with heq | hmem
          · exact ⟨x, List.mem_cons_self _ _, by rw [hc, heq]⟩
          · obtain ⟨x', hx', hcl⟩ := ih hrest hmem
            exact ⟨x', List.mem_cons_of_mem _ hx', hcl⟩

theorem build_model_ok_decomp {e : Endpoint} {s st : ModelState}
    (hb : build_model e s = Except.ok st) :
    ∃ sigEs extraEs,
      classifiedSigEntries (get_path_param_names e.path) e.params =
        Except.ok sigEs ∧
      classifiedExtraEntries e.extraArgs = Except.ok extraEs ∧
      st.routeModels =
        (sigEs ++ extraEs).filter (hasSource BucketKey.header)
          ++ (sigEs ++ extraEs).filter (hasSource BucketKey.path)
          ++ (sigEs ++ extraEs).filter (hasSource BucketKey.query)
          ++ (sigEs ++ extraEs).filter (hasSource BucketKey.cookie)
          ++ (sigEs ++ extraEs).filter (hasSource BucketKey.system) := by
  unfold build_model at hb
  cases h1 : computeSigParams (get_path_param_names e.path) Buckets.empty
      e.params with
  | error err => simp only [h1] at hb; cases hb
  | ok b1 =>
    simp only [h1] at hb
    cases h2 : computeExtras b1 e.extraArgs with
    | error err => simp only [h2] at hb; cases hb
    | ok b2 =>
      simp only [h2] at hb
      obtain ⟨sigEs, hsig, hb1⟩ := (computeSigParams_ok_iff _ _ _ _).mp h1
      obtain ⟨extraEs, hextra, hb2⟩ := (computeExtras_ok_iff _ _ _).mp h2
      refine ⟨sigEs, extraEs, hsig, hextra, ?_⟩
      cases hb
      have hall : b2 = (sigEs ++ extraEs).foldl Buckets.add Buckets.empty := by
        rw [hb2, hb1, List.foldl_append]
      simp only [hall]
      rw [buckets_foldl_header, buckets_foldl_path, buckets_foldl_query,
        buckets_foldl_cookie, buckets_foldl_system]
      simp [Buckets.empty]

theorem foldl_resolveStep {Ctx V E : Type} (ctx : Ctx)
    (rs : List (RtResolver Ctx V E)) (vals : List (String × V)) (errs : List E)
    (ids : List Nat) :
    rs.foldl (resolveStep ctx) (vals, errs, ids) =
      (dictUpdate vals (rs.map (fun r => (r.run ctx).1)).flatten,
       errs ++ (rs.map (fun r => (r.run ctx).2.norm)).flatten,
       ids ++ rs.map (fun r => r.rid)) := by
  induction rs generalizing vals errs ids with
  | nil => simp [dictUpdate]
  | cons r rest ih =>
    simp only [List.foldl_cons, resolveStep, List.map_cons, List.flatten_cons]
    rw [ih]
    refine congrArg₂ _ ?_ (congrArg₂ _ ?_ ?_)
    · show dictUpdate (dictUpdate vals (r.run ctx).1) _ = _
      unfold dictUpdate
      rw [← List.foldl_append]
    · rw [List.append_assoc]
    · rw [List.append_assoc]
      rfl

theorem wsLoop_ok_receive_run (pre ms : List WsMsg)
    (hok : ∀ m ∈ pre, m = WsMsg.receiveMsg false) :
    wsLoop (pre ++ ms) = ((wsLoop ms).1 + pre.length, (wsLoop ms).2) := by
  induction pre with
  | nil => simp
  | cons m rest ih =>
    have hm := hok m (List.mem_cons_self _ _)
    subst hm
    simp only [List.cons_append, wsLoop]
    simp only [List.append_eq]
    rw [ih (fun m hm => hok m (List.mem_cons_of_mem _ hm))]
    simp only [List.length_cons, Prod.mk.injEq]
    refine ⟨by omega, ?_⟩
    trivial

/-! ## Claim theorems -/

/-- C1: for every endpoint argument model with a body resolver and every
execution context, if resolving the body produces at least one error, then
`resolve_dependencies` returns immediately with exactly those body errors
(and the body's values) and invokes zero of the non-body resolvers of the
route-model list. -/
theorem resolve_dependencies_body_short_circuit {Ctx V E : Type}
    (m : RuntimeModel Ctx V E) (ctx : Ctx)
    (rb : Ctx → List (String × V) × List E)
    (hb : m.bodyResolver = some rb) (herr : (rb ctx).2 ≠ []) :
    resolve_dependencies m ctx = ((rb ctx).1, (rb ctx).2, []) := by
  have hbo : bodyOutput m ctx = rb ctx := by
    unfold bodyOutput
    rw [hb]
  unfold resolve_dependencies
  rw [hbo]
  cases h2 : (rb ctx).2 with
  | nil => exact absurd h2 herr
  | cons a l => simp [h2, List.isEmpty]

/-- Witness for C1: a concrete model whose body resolver fails; the result is
exactly the body's values and error, and the invoked-resolver trace is empty
even though a non-body resolver exists. -/
theorem resolve_dependencies_body_short_circuit_witness :
    resolve_dependencies
        (⟨some (fun _ => ([("b", 1)], ["body error"])),
          [⟨7, fun _ => ([("q", 2)], ErrOut.one "query error")⟩]⟩ :
          RuntimeModel Unit Nat String) ()
      = ([("b", 1)], ["body error"], []) :=
  resolve_dependencies_body_short_circuit _ ()
    (fun _ => ([("b", 1)], ["body error"])) rfl (by simp)

/-- C5: for every endpoint argument model with no body resolver (or whose body
resolves without error) and every context, `resolve_dependencies` invokes
every non-body resolver in the precomputed order, returns the concatenation of
all resolvers' normalized error lists (so every failing resolver's errors are
present), and merges the value mappings in order with later resolvers
overwriting earlier keys on collision (the lookup of any key is the last
binding written for it, falling back to the body's mapping). -/
theorem resolve_dependencies_aggregates_all {Ctx V E : Type}
    (m : RuntimeModel Ctx V E) (ctx : Ctx)
    (hok : (bodyOutput m ctx).2 = []) :
    resolve_dependencies m ctx =
      (dictUpdate (bodyOutput m ctx).1
        ((m.routeModels.map (fun r => (r.run ctx).1)).flatten),
       (m.routeModels.map (fun r => (r.run ctx).2.norm)).flatten,
       m.routeModels.map (fun r => r.rid))
    ∧ (∀ r ∈ m.routeModels, ∀ er ∈ ((r.run ctx).2).norm,
        er ∈ (resolve_dependencies m ctx).2.1)
    ∧ (∀ k, lookupKV k (resolve_dependencies m ctx).1 =
        orElseO
          (lookupKV k
            ((m.routeModels.map (fun r => (r.run ctx).1)).flatten).reverse)
          (lookupKV k (bodyOutput m ctx).1)) := by
  have hmain : resolve_dependencies m ctx =
      (dictUpdate (bodyOutput m ctx).1
        ((m.routeModels.map (fun r => (r.run ctx).1)).flatten),
       (m.routeModels.map (fun r => (r.run ctx).2.norm)).flatten,
       m.routeModels.map (fun r => r.rid)) := by
    unfold resolve_dependencies
    simp only [hok, List.isEmpty_nil, if_true]
    rw [foldl_resolveStep]
    simp
  refine ⟨hmain, ?_, ?_⟩
  · intro r hr er her
    rw [hmain]
    exact List.mem_flatten.mpr
      ⟨(r.run ctx).2.norm, List.mem_map_of_mem _ hr, her⟩
  · intro k
    rw [hmain]
    exact lookupKV_dictUpdate _ _ k

/-- Witness for C5: no body resolver, two independently failing non-body
resolvers (one returning a single error, one returning an error list): both
errors appear in the aggregate, both resolvers are invoked in order, and the
two value mappings are merged. -/
theorem resolve_dependencies_aggregates_all_witness :
    resolve_dependencies
        (⟨none,
          [⟨1, fun _ => ([("a", 1)], ErrOut.one "query int error")⟩,
           ⟨2, fun _ => ([("a", 9), ("h", 3)],
              ErrOut.many ["header int error"])⟩]⟩ :
          RuntimeModel Unit Nat String) ()
      = ([("a", 9), ("h", 3)],
         ["query int error", "header int error"], [1, 2]) :=
  ((resolve_dependencies_aggregates_all
      (⟨none,
        [⟨1, fun _ => ([("a", 1)], ErrOut.one "query int error")⟩,
         ⟨2, fun _ => ([("a", 9), ("h", 3)],
            ErrOut.many ["header int error"])⟩]⟩ :
        RuntimeModel Unit Nat String) () rfl).1).trans (by decide)

/-- C7: for every WebSocket dispatch run with a registered on-disconnect hook,
the hook runs exactly once no matter how the receive loop ends; a client
disconnect message after successfully processed messages yields one
on-disconnect invocation with the message's code (defaulting to normal
closure when absent) and no exception, and a message whose processing raises
yields one on-disconnect invocation with the internal-error code 1011 and the
exception re-raised. -/
theorem dispatch_on_disconnect_once (msgs : List WsMsg) :
    (dispatch true msgs).onDisconnectCodes.length = 1
    ∧ (∀ pre code rest, (∀ m ∈ pre, m = WsMsg.receiveMsg false) →
        msgs = pre ++ WsMsg.disconnectMsg code :: rest →
        dispatch true msgs =
          ⟨pre.length, [code.getD WS_1000_NORMAL_CLOSURE], false⟩)
    ∧ (∀ pre rest, (∀ m ∈ pre, m = WsMsg.receiveMsg false) →
        msgs = pre ++ WsMsg.receiveMsg true :: rest →
        dispatch true msgs = ⟨pre.length, [WS_1011_INTERNAL_ERROR], true⟩) := by
  refine ⟨by simp [dispatch], ?_, ?_⟩
  · intro pre code rest hok hmsgs
    subst hmsgs
    unfold dispatch
    rw [wsLoop_ok_receive_run pre _ hok]
    simp [wsLoop]
  · intro pre rest hok hmsgs
    subst hmsgs
    unfold dispatch
    rw [wsLoop_ok_receive_run pre _ hok]
    simp [wsLoop]

/-- Witness for C7: a run with one good JSON message then a disconnect with
code 1000 produces exactly one on-receive and one on-disconnect with code
1000; a run where the second message's processing raises produces one
on-disconnect with code 1011 and the exception re-raised. -/
theorem dispatch_on_disconnect_once_witness :
    dispatch true [WsMsg.receiveMsg false, WsMsg.disconnectMsg (some 1000)]
      = ⟨1, [1000], false⟩
    ∧ dispatch true [WsMsg.receiveMsg false, WsMsg.receiveMsg true]
      = ⟨1, [WS_1011_INTERNAL_ERROR], true⟩ :=
  ⟨(dispatch_on_disconnect_once
      [WsMsg.receiveMsg false, WsMsg.disconnectMsg (some 1000)]).2.1
      [WsMsg.receiveMsg false] (some 1000) [] (by simp) rfl,
   (dispatch_on_disconnect_once
      [WsMsg.receiveMsg false, WsMsg.receiveMsg true]).2.2
      [WsMsg.receiveMsg false] [] (by simp) rfl⟩

/-- C9: for every `ExtraEndpointArg` and kwargs mapping, `resolve` returns the
value bound to the arg's name and removes that entry from the mapping when the
name is present (after removal the name no longer resolves, given the
mapping's keys are unique as in a Python dict), and raises a lookup failure
(`AttributeError`) when the name is absent. -/
theorem extra_arg_resolve_spec {V : Type} (x : ExtraArg)
    (kwargs : List (String × V)) :
    (∀ v, lookupKV x.name kwargs = some v →
      x.resolve kwargs = Except.ok (v, eraseKV x.name kwargs)
      ∧ ((kwargs.map Prod.fst).Nodup →
          lookupKV x.name (eraseKV x.name kwargs) = none))
    ∧ (lookupKV x.name kwargs = none →
        x.resolve kwargs =
          Except.error (x.name ++ " ExtraOperationArg not found")) := by
  constructor
  · intro v hv
    refine ⟨?_, fun hnd => lookupKV_eraseKV_self _ _ hnd⟩
    unfold ExtraArg.resolve
    rw [hv]
  · intro hv
    unfold ExtraArg.resolve
    rw [hv]

/-- Witness for C9: a concrete arg named `limit` resolves from a mapping that
binds it, popping the binding, and fails with the lookup error on a mapping
that does not. -/
theorem extra_arg_resolve_spec_witness :
    (⟨"limit", TyAnn.empty, Dflt.empty⟩ : ExtraArg).resolve
        [("limit", 10), ("offset", 0)]
      = Except.ok (10, [("offset", 0)])
    ∧ (⟨"limit", TyAnn.empty, Dflt.empty⟩ : ExtraArg).resolve
        ([("offset", 0)] : List (String × Nat))
      = Except.error "limit ExtraOperationArg not found" :=
  ⟨((extra_arg_resolve_spec (⟨"limit", TyAnn.empty, Dflt.empty⟩ : ExtraArg)
      [("limit", 10), ("offset", 0)]).1 10 (by decide)).1,
   (extra_arg_resolve_spec (⟨"limit", TyAnn.empty, Dflt.empty⟩ : ExtraArg)
      ([("offset", 0)] : List (String × Nat))).2 (by decide)⟩

/-- C10: for every `ExtraEndpointArg` constructed with a falsy default value
(`None`, `0`, the empty string, or `False`), the stored default becomes the
`inspect.Parameter.empty` sentinel (so the injected argument is required);
any truthy default value is preserved. -/
theorem extra_arg_falsy_default_becomes_empty (name : String) (a : TyAnn) :
    (mkExtraEndpointArg name a (Dflt.value PyVal.vNone)).default = Dflt.empty
    ∧ (mkExtraEndpointArg name a
        (Dflt.value (PyVal.vInt 0))).default = Dflt.empty
    ∧ (mkExtraEndpointArg name a
        (Dflt.value (PyVal.vStr ""))).default = Dflt.empty
    ∧ (mkExtraEndpointArg name a
        (Dflt.value (PyVal.vBool false))).default = Dflt.empty
    ∧ (∀ dv : Dflt, dv.truthy = true →
        (mkExtraEndpointArg name a dv).default = dv) := by
  refine ⟨rfl,
    by simp [mkExtraEndpointArg, Dflt.truthy, PyVal.truthy], rfl, rfl,
    fun dv h => ?_⟩
  simp [mkExtraEndpointArg, h]

/-- Witness for C10: the `limit`/`offset` example of the class's own
docstring — a default of `0` is turned into the required sentinel while a
default of `10` is kept. -/
theorem extra_arg_falsy_default_becomes_empty_witness :
    (mkExtraEndpointArg "offset" TyAnn.empty
        (Dflt.value (PyVal.vInt 0))).default = Dflt.empty
    ∧ (mkExtraEndpointArg "limit" TyAnn.empty
        (Dflt.value (PyVal.vInt 10))).default = Dflt.value (PyVal.vInt 10) :=
  ⟨(extra_arg_falsy_default_becomes_empty "offset" TyAnn.empty).2.1,
   (extra_arg_falsy_default_becomes_empty "limit" TyAnn.empty).2.2.2.2
      (Dflt.value (PyVal.vInt 10)) rfl⟩

/-- C4: after a successful `build()`, the final ordered non-body resolver list
(`_route_models`) is exactly the per-source buckets concatenated in the fixed
precedence Header, Path, Query, Cookie, System, each bucket holding its
entries in declaration/processing order (it equals the source-filtered
sublist of the declaration-ordered classified entries). -/
theorem build_model_fixed_precedence (e : Endpoint) (s st : ModelState)
    (es : List ResolverEntry)
    (hb : build_model e s = Except.ok st)
    (hes : classifiedEntries e = Except.ok es) :
    st.routeModels =
      es.filter (hasSource BucketKey.header)
        ++ es.filter (hasSource BucketKey.path)
        ++ es.filter (hasSource BucketKey.query)
        ++ es.filter (hasSource BucketKey.cookie)
        ++ es.filter (hasSource BucketKey.system) := by
  obtain ⟨sigEs, extraEs, hsig, hextra, hroute⟩ := build_model_ok_decomp hb
  unfold classifiedEntries at hes
  simp only [hsig, hextra] at hes
  cases hes
  exact hroute

/-- C6: `build_model` recomputes everything from scratch — its result does not
depend on the previous state at all, so a second `build()` call returns the
very same state (same resolver list length, order and classification). -/
theorem build_model_recomputes_from_scratch (e : Endpoint)
    (s : ModelState) (st : ModelState)
    (h : build_model e s = Except.ok st) :
    build_model e st = Except.ok st
    ∧ ∀ s' : ModelState, build_model e s' = build_model e s :=
  ⟨h, fun _ => rfl⟩

/-- C8: no resolver of the built route-model list originates from a `**kwargs`
parameter, a `*args` parameter, or an unannotated `self` parameter — those are
skipped entirely by the signature walk. -/
theorem build_model_never_includes_skipped (e : Endpoint) (s st : ModelState)
    (hb : build_model e s = Except.ok st) (entry : ResolverEntry)
    (hm : entry ∈ st.routeModels) (p : Param)
    (ho : entry.origin = EntryOrigin.fromSig p) :
    p.kind ≠ SigKind.varKeyword ∧ p.kind ≠ SigKind.varPositional ∧
      ¬(p.name = "self" ∧ p.tyAnn = TyAnn.empty) := by
  obtain ⟨sigEs, extraEs, hsig, hextra, hroute⟩ := build_model_ok_decomp hb
  rw [hroute] at hm
  have hmem : entry ∈ sigEs ∨ entry ∈ extraEs := by
    simp only [List.mem_append, List.mem_filter] at hm
    tauto
  rcases hmem with hmem | hmem
  · obtain ⟨p', hp', hcl⟩ := mem_classifiedSigEntries hsig hmem
    have horigin := classifySig_some_origin hcl
    have hpp : p = p' := EntryOrigin.fromSig.inj (ho.symm.trans horigin)
    subst hpp
    obtain ⟨hk, hns⟩ := classifySig_not_skipped hcl
    exact ⟨by simp [hk], by simp [hk], hns⟩
  · obtain ⟨x, hx, hcl⟩ := mem_classifiedExtraEntries hextra hmem
    have horigin := classifyExtra_some_origin hcl
    rw [ho] at horigin
    exact EntryOrigin.noConfusion horigin

/-- C3 counterexample: declaring the path parameter `id` with type
`List[Item]` makes `build()` fail with an `AssertionError` (from the bare
`assert is_scalar_field(...)`), not with the `ImproperConfiguration`
configuration error the claim asserts — exactly what the repository's own
test expects via `pytest.raises(AssertionError)`. -/
theorem build_model_path_list_item_assertion :
    build_model c3Endpoint ModelState.initial =
      Except.error
        (BuildErr.assertFail "Path params must be of one of the supported types")
    ∧ build_model c3Endpoint ModelState.initial ≠
      Except.error
        (BuildErr.improperConfig
          "List[Item] type can't be processed as a field") := by
  refine ⟨rfl, ?_⟩
  intro hcon
  rw [(rfl :
    build_model c3Endpoint ModelState.initial =
      Except.error
        (BuildErr.assertFail
          "Path params must be of one of the supported types"))] at hcon
  cases hcon

/-- C3 (amended): a parameter named in the path template whose declared type
is structured (non-scalar, non-scalar-sequence) makes `build()` fail at
route-registration time with an `AssertionError` ("Path params must be of one
of the supported types"), not an `ImproperConfiguration`. -/
theorem classifySig_path_structured_asserts (pathNames : List String)
    (p : Param) (ty : TypeExpr)
    (hann : p.tyAnn = TyAnn.plain ty)
    (hshape : ty.shape = TypeShape.model ∨ ty.shape = TypeShape.other)
    (hkind : p.kind = SigKind.normal)
    (hns : ty.nonSchema = false)
    (hsys : p.default.isSystemResolver = false)
    (hpath : p.name ∈ pathNames) :
    classifySig pathNames p =
      Except.error
        (BuildErr.assertFail
          "Path params must be of one of the supported types") := by
  rcases hshape with hsh | hsh <;>
    simp [classifySig, getTypeAndDefault, hann, skipParam, hkind, hns, hsys,
      hpath, get_parameter_field, TyAnn.typeExpr, hsh]

/-- Witness for the amended C3: the concrete `id: List[Item]` path parameter
hits the assertion. -/
theorem classifySig_path_structured_asserts_witness :
    classifySig ["id"]
      ⟨"id", SigKind.normal,
        TyAnn.plain ⟨TypeShape.other, "List[Item]", false, []⟩, Dflt.empty⟩ =
      Except.error
        (BuildErr.assertFail
          "Path params must be of one of the supported types") :=
  classifySig_path_structured_asserts ["id"] _ _ rfl (Or.inr rfl) rfl rfl rfl
    (by simp)

/-- C2 counterexample: a Query parameter declared with the structured pydantic
model `Item` does NOT make `build()` raise the hard configuration error the
claim asserts; the build succeeds and the parameter is expanded into a bulk
resolver (one child per model field) filed under the query bucket — structured
types are expanded for Query/Header/Cookie sources too, not only Body/Form. -/
theorem build_query_structured_model_expands :
    build_model c2Endpoint ModelState.initial =
      Except.ok
        ⟨⟨[], [],
          [⟨"q", BucketKey.query, true, ["title"], EntryOrigin.fromSig c2Param⟩],
          [], [], []⟩,
         [⟨"q", BucketKey.query, true, ["title"], EntryOrigin.fromSig c2Param⟩],
         none⟩ := rfl

/-- C2 (amended): for a non-path parameter whose default is a field-info of
any kind other than Body/WsBody/File (so Query, Header, Cookie, Form, or a
stray Path marker), a structured declared type raises the hard error
"type can't be processed as a field" exactly when it is NOT a pydantic-model
subclass; a model-subclass structured type is instead expanded into
sub-resolvers for ALL of these sources — not only when the source is Body or
Form. -/
theorem classifySig_structured_nonbody (pathNames : List String) (p : Param)
    (ty : TypeExpr) (k : FieldInfoKind)
    (hann : p.tyAnn = TyAnn.plain ty)
    (hkind : p.kind = SigKind.normal)
    (hns : ty.nonSchema = false)
    (hdef : p.default = Dflt.fieldInfo k)
    (hk : k.isBodyOrFile = false)
    (hpath : p.name ∉ pathNames) :
    (ty.shape = TypeShape.model →
      classifySig pathNames p = Except.ok (some ⟨p.name, k.bucket, true,
        ty.modelFields.map Prod.fst, EntryOrigin.fromSig p⟩))
    ∧ (ty.shape = TypeShape.other →
      classifySig pathNames p = Except.error
        (BuildErr.improperConfig
          (ty.pyName ++ " type can't be processed as a field"))) := by
  constructor <;> intro hsh <;>
    simp [classifySig, getTypeAndDefault, hann, skipParam, hkind, hns, hdef,
      hk, hpath, get_parameter_field, generate_resolvers, TyAnn.typeExpr,
      Dflt.isSystemResolver, hsh]

/-- Witness for the amended C2: a Header parameter with a flat model type is
expanded into a bulk resolver, and a Header parameter with a non-model
structured type (`dict`) raises the hard error. -/
theorem classifySig_structured_nonbody_witness :
    classifySig []
      ⟨"h", SigKind.normal,
        TyAnn.plain ⟨TypeShape.model, "Item", false,
          [("title", TypeShape.scalar)]⟩,
        Dflt.fieldInfo FieldInfoKind.header⟩ =
      Except.ok (some ⟨"h", BucketKey.header, true, ["title"],
        EntryOrigin.fromSig
          ⟨"h", SigKind.normal,
            TyAnn.plain ⟨TypeShape.model, "Item", false,
              [("title", TypeShape.scalar)]⟩,
            Dflt.fieldInfo FieldInfoKind.header⟩⟩)
    ∧ classifySig []
      ⟨"h2", SigKind.normal,
        TyAnn.plain ⟨TypeShape.other, "dict", false, []⟩,
        Dflt.fieldInfo FieldInfoKind.header⟩ =
      Except.error
        (BuildErr.improperConfig
          "dict type can't be processed as a field") :=
  ⟨(classifySig_structured_nonbody []
      ⟨"h", SigKind.normal,
        TyAnn.plain ⟨TypeShape.model, "Item", false,
          [("title", TypeShape.scalar)]⟩,
        Dflt.fieldInfo FieldInfoKind.header⟩
      ⟨TypeShape.model, "Item", false, [("title", TypeShape.scalar)]⟩
      FieldInfoKind.header rfl rfl rfl rfl rfl (by simp)).1 rfl,
   (classifySig_structured_nonbody []
      ⟨"h2", SigKind.normal,
        TyAnn.plain ⟨TypeShape.other, "dict", false, []⟩,
        Dflt.fieldInfo FieldInfoKind.header⟩
      ⟨TypeShape.other, "dict", false, []⟩
      FieldInfoKind.header rfl rfl rfl rfl rfl (by simp)).2 rfl⟩

/-- Witness for C4: for the endpoint declaring (query, header, path, cookie)
parameters in that order, the built route-model list is reordered into the
fixed precedence header, path, query, cookie, and equals the source-filtered
rearrangement of the declaration-ordered classified entries. -/
theorem build_model_fixed_precedence_witness :
    build_model c4Endpoint ModelState.initial =
      Except.ok ⟨⟨[c4hEntry], [c4idEntry], [c4qEntry], [c4cEntry], [], []⟩,
        [c4hEntry, c4idEntry, c4qEntry, c4cEntry], none⟩
    ∧ classifiedEntries c4Endpoint =
      Except.ok [c4qEntry, c4hEntry, c4idEntry, c4cEntry]
    ∧ (⟨⟨[c4hEntry], [c4idEntry], [c4qEntry], [c4cEntry], [], []⟩,
        [c4hEntry, c4idEntry, c4qEntry, c4cEntry], none⟩ :
          ModelState).routeModels =
      [c4qEntry, c4hEntry, c4idEntry, c4cEntry].filter
          (hasSource BucketKey.header)
        ++ [c4qEntry, c4hEntry, c4idEntry, c4cEntry].filter
          (hasSource BucketKey.path)
        ++ [c4qEntry, c4hEntry, c4idEntry, c4cEntry].filter
          (hasSource BucketKey.query)
        ++ [c4qEntry, c4hEntry, c4idEntry, c4cEntry].filter
          (hasSource BucketKey.cookie)
        ++ [c4qEntry, c4hEntry, c4idEntry, c4cEntry].filter
          (hasSource BucketKey.system) :=
  ⟨rfl, rfl,
   build_model_fixed_precedence c4Endpoint ModelState.initial
     ⟨⟨[c4hEntry], [c4idEntry], [c4qEntry], [c4cEntry], [], []⟩,
       [c4hEntry, c4idEntry, c4qEntry, c4cEntry], none⟩
     [c4qEntry, c4hEntry, c4idEntry, c4cEntry] rfl rfl⟩

/-- Witness for C6: a second `build()` on the state produced by the first
returns the identical state. -/
theorem build_model_recomputes_from_scratch_witness :
    build_model c6Endpoint ModelState.initial = Except.ok c6State
    ∧ build_model c6Endpoint c6State = Except.ok c6State :=
  ⟨rfl,
   (build_model_recomputes_from_scratch c6Endpoint ModelState.initial c6State
      rfl).1⟩

/-- Witness for C8: building `(self, *args, **kwargs, q: int)` produces a
route-model list containing only the `q` resolver, whose originating
parameter is neither variadic nor an unannotated `self`. -/
theorem build_model_never_includes_skipped_witness :
    build_model c8Endpoint ModelState.initial = Except.ok c8State
    ∧ c8qEntry ∈ c8State.routeModels
    ∧ (c8qParam.kind ≠ SigKind.varKeyword
        ∧ c8qParam.kind ≠ SigKind.varPositional
        ∧ ¬(c8qParam.name = "self" ∧ c8qParam.tyAnn = TyAnn.empty)) :=
  ⟨rfl, by decide,
   build_model_never_includes_skipped c8Endpoint ModelState.initial c8State
     rfl c8qEntry (by decide) c8qParam rfl⟩
